import Mathlib

set_option maxRecDepth 8192

namespace SpotifyBronze

/-!
Verification of the Spotify bronze-layer ingestion pipeline
(`Spotify/oauth.py`, `Spotify/client.py`, `Spotify/schema.py`,
`Spotify/util.py`, `Spotify/raw_writer.py`) against its specification.

The Python code is shallowly embedded: decoded JSON documents become the
inductive type `Json`; the two `requests` call sites are modelled by their
actual semantics — each raises an uncaught `TypeError` before any request is
sent (a dict-valued `auth`; three positional arguments to `requests.get`);
`json.loads` and `hashlib.md5` are oracle function parameters; the filesystem
is an explicit association list of paths to file contents.  Each embedded
definition carries the name of the Python function it translates.
-/

/-- A decoded JSON value, i.e. the Python object returned by `json.loads`.
Numbers are modelled as integers (all numbers relevant to the claims are
integral).  Object fields are kept in insertion order; keys are unique for
documents produced by `json.loads`. -/
inductive Json where
  | null : Json
  | bool (b : Bool) : Json
  | num (n : Int) : Json
  | str (s : String) : Json
  | arr (xs : List Json) : Json
  | obj (kvs : List (String × Json)) : Json

/-- Python exceptions that the embedded code can raise while manipulating
decoded JSON values. -/
inductive PyErr where
  | attributeError : PyErr
  | typeError : PyErr
  | keyError : PyErr
  | valueError : PyErr
deriving DecidableEq, Repr

/-- Python truthiness (`if x:`) of a decoded JSON value. -/
def pyTruthy : Json → Bool
  | .null => false
  | .bool b => b
  | .num n => n != 0
  | .str s => s != ""
  | .arr xs => !xs.isEmpty
  | .obj kvs => !kvs.isEmpty

/-- Truthiness of a Python variable that may hold `None` (`Option`). -/
def pyTruthyOpt : Option Json → Bool
  | none => false
  | some j => pyTruthy j

/-- Whether a decoded JSON object has a key (Python `key in d`). -/
def hasKey : Json → String → Bool
  | .obj kvs, k => kvs.any (fun kv => kv.1 == k)
  | _, _ => false

/-- Python `d.get(k, default)`: only mappings have a `.get` attribute, every
other value raises `AttributeError`. -/
def pyGetDefault (j : Json) (k : String) (dflt : Json) : Except PyErr Json :=
  match j with
  | .obj kvs => .ok (((kvs.filter (fun kv => kv.1 == k)).head?.map Prod.snd).getD dflt)
  | _ => .error .attributeError

/-- Python `d[k]` on a decoded JSON value: `KeyError` on a missing key of a
mapping, `TypeError` elsewhere. -/
def pySubscript (j : Json) (k : String) : Except PyErr Json :=
  match j with
  | .obj kvs =>
    match (kvs.filter (fun kv => kv.1 == k)).head? with
    | some kv => .ok kv.2
    | none => .error .keyError
  | _ => .error .typeError

/-- Python `len(x)` on a decoded JSON value: defined for sequences, mappings
and strings, `TypeError` on numbers, booleans and `None`. -/
def pyLen : Json → Except PyErr Nat
  | .arr xs => .ok xs.length
  | .obj kvs => .ok kvs.length
  | .str s => .ok s.length
  | _ => .error .typeError

/-- Python `int(x)` on a decoded JSON value. -/
def pyInt : Json → Except PyErr Int
  | .num n => .ok n
  | .bool b => .ok (if b then 1 else 0)
  | .str s =>
    match s.toInt? with
    | some n => .ok n
    | none => .error .valueError
  | _ => .error .valueError

/-! ## Schema validation (`Spotify/util.py`, `Spotify/schema.py`) -/

/-- The structured content of the `ValueError` messages raised by
`_ensure_dict` and `_ensure_list`; the spec calls these `SchemaError`.
Each constructor carries the context string built by the caller. -/
inductive SchemaError where
  | notDict (ctx : String) : SchemaError
  | missingKeys (ctx : String) (missing : List String) : SchemaError
  | notList (ctx : String) : SchemaError
deriving DecidableEq, Repr

/-- Embedding of `util._ensure_dict`: raises when the value is not a mapping,
or when any of `keys` is absent, reporting the missing keys in order. -/
def _ensure_dict (d : Json) (keys : List String) (ctx : String) :
    Except SchemaError Unit :=
  match d with
  | .obj kvs =>
    let missing := keys.filter (fun k => !(kvs.any (fun kv => kv.1 == k)))
    if missing.isEmpty then .ok () else .error (.missingKeys ctx missing)
  | _ => .error (.notDict ctx)

/-- Embedding of `util._ensure_list`: raises when the value is not a list or
is an empty list. -/
def _ensure_list (x : Json) (ctx : String) : Except SchemaError Unit :=
  match x with
  | .arr xs => if xs.isEmpty then .error (.notList ctx) else .ok ()
  | _ => .error (.notList ctx)

/-- The value of `payload[k]` once `_ensure_dict` has guaranteed presence
(the default is unreachable under that guard). -/
def indexAfterEnsure (j : Json) (k : String) : Json :=
  match pySubscript j k with
  | .ok v => v
  | .error _ => .null

/-- The five keys `schema.validate_json` requires of every artist record. -/
def requiredArtistKeys : List String :=
  ["followers", "genres", "name", "popularity", "type"]

/-- The context string `payload[\x27artists\x27]` used by `validate_json`. -/
def artistsCtx : String := "payload[\x27artists\x27]"

/-- The context string `payload[\x27artists\x27][\x27items\x27]`. -/
def itemsCtx : String := "payload[\x27artists\x27][\x27items\x27]"

/-- The context string for the i-th element of `items`. -/
def itemCtx (i : Nat) : String :=
  itemsCtx ++ "[" ++ toString i ++ "]"

/-- The `for i, artist in enumerate(items)` loop of `schema.validate_json`. -/
def validateItems : List Json → Nat → Except SchemaError Unit
  | [], _ => .ok ()
  | a :: rest, i => do
    _ensure_dict a requiredArtistKeys (itemCtx i)
    validateItems rest (i + 1)

/-- Embedding of `schema.validate_json`: the structural gate run on a decoded
search response before it is trusted downstream. -/
def validate_json (payload : Json) : Except SchemaError Unit := do
  _ensure_dict payload ["artists"] "payload"
  let artists := indexAfterEnsure payload "artists"
  _ensure_dict artists ["items"] artistsCtx
  let items := indexAfterEnsure artists "items"
  _ensure_list items itemsCtx
  match items with
  | .arr xs => validateItems xs 0
  | _ => .ok ()

/-- Modelled from the spec (§4.3): whether a document conforms to the minimal
required shape, exactly as the claim lists the conditions. -/
def conforms (payload : Json) : Bool :=
  hasKey payload "artists" &&
  (let artists := indexAfterEnsure payload "artists"
   hasKey artists "items" &&
   (match indexAfterEnsure artists "items" with
    | .arr xs => !xs.isEmpty && xs.all (fun a => requiredArtistKeys.all (hasKey a))
    | _ => false))

/-- Modelled from the spec (§4.3): the per-element check restated top-down,
naming the offending index. -/
def specItemsCheck : List Json → Nat → Except SchemaError Unit
  | [], _ => .ok ()
  | a :: rest, i =>
    match a with
    | .obj kvs =>
      match requiredArtistKeys.filter (fun k => !(kvs.any (fun kv => kv.1 == k))) with
      | [] => specItemsCheck rest (i + 1)
      | m => .error (.missingKeys (itemCtx i) m)
    | _ => .error (.notDict (itemCtx i))

/-- Modelled from the spec (§4.3): the validator restated as the claim lists
its checks, top-down, naming each offending context. -/
def validateSpec (payload : Json) : Except SchemaError Unit :=
  match payload with
  | .obj kvs =>
    match (kvs.filter (fun kv => kv.1 == "artists")).head? with
    | none => .error (.missingKeys "payload" ["artists"])
    | some kvA =>
      match kvA.2 with
      | .obj kvs2 =>
        match (kvs2.filter (fun kv => kv.1 == "items")).head? with
        | none => .error (.missingKeys artistsCtx ["items"])
        | some kvI =>
          match kvI.2 with
          | .arr [] => .error (.notList itemsCtx)
          | .arr xs => specItemsCheck xs 0
          | _ => .error (.notList itemsCtx)
      | _ => .error (.notDict artistsCtx)
  | _ => .error (.notDict "payload")

/-! ## Retrying HTTP calls (`Spotify/oauth.py`, `Spotify/client.py`)

Both `requests` call sites are modelled by their actual semantics.  Each one
deterministically raises `TypeError` before any request is sent: `oauth.py`
line 29 passes `auth` as a dict, which `requests` invokes as a callable while
preparing the request, and `client.py` line 23 passes three positional
arguments to `requests.get`, which accepts at most two.  A `TypeError` is not
a `RequestException`, so neither `except` clause catches it.  The result type
of the modelled calls is `Except PyErr Outcome` so that the retry lines the
source writes after each call stay translated, but no `.ok` value can occur:
those lines are unreachable.  Wall-clock time is the fixed instant `now`;
sleeps and latency do not advance it in this model. -/

/-- The outcome the surrounding `try` would observe from one `requests` call
if the call itself did not raise: a transport-level `RequestException`, or an
HTTP response carrying its status code and the result of decoding its body
(`r.json()`; `none` when the body is not JSON, in which case `requests`
raises a `JSONDecodeError`, itself a `RequestException`).  Both calls in this
program do raise at the call itself, so no value of this type is ever
produced. -/
inductive Outcome where
  | transport : Outcome
  | resp (status : Nat) (body : Option Json) : Outcome

/-- The `requests.post` call of `oauth.py` line 29: `auth` is the dict
`\x7bself.client_id : self.client_secret\x7d` from line 24.  For any truthy
non-tuple `auth`, `requests` calls `auth(request)` while preparing the
request, so the call raises `TypeError` (a dict is not callable) before any
network request is sent — on every attempt. -/
def requestsPostAuthDict : Except PyErr Outcome := .error .typeError

/-- The `requests.get` call of `client.py` line 23:
`requests.get(BASE_URL, params, headers, timeout=20)` passes three positional
arguments to `requests.get(url, params=None, **kwargs)`, which accepts at
most two, so Python rejects the call with `TypeError` before any network
request is sent — on every attempt. -/
def requestsGetPositional : Except PyErr Outcome := .error .typeError

/-- The retry test shared by both loops, with Python operator precedence:
`(status == 429) or ((500 < status < 600) and attempt < retires)`. -/
def statusRetry (status attempt retires : Nat) : Bool :=
  status == 429 || (500 < status && status < 600 && attempt < retires)

/-- Whether `r.raise_for_status()` raises an `HTTPError`. -/
def raiseForStatus (status : Nat) : Bool :=
  400 ≤ status && status < 600

/-- The mutable fields `self._token` / `self._exp` of `SpotifyOAuthClient`. -/
structure OAuthState where
  _token : Option Json
  _exp : Int

/-- The cache state `SpotifyOAuthClient.__init__` leaves behind. -/
def initState : OAuthState := ⟨none, 0⟩

/-- The `RequestException` that ended the final attempt, recorded inside the
message of `RuntimeError(f"Request failed after ... attempts: ...")`. -/
inductive Cause where
  | transportExc : Cause
  | httpError (status : Nat) : Cause
  | jsonDecode : Cause
deriving DecidableEq, Repr

/-- The exceptions `SpotifyOAuthClient.get_token` can raise: the wrapped
final-attempt failure, the fall-off-the-loop `RuntimeError("Unexpected
failure in fetching the token!")`, and Python errors from the payload
handling that no `except` clause catches. -/
inductive AuthErr where
  | requestFailed (attempts : Nat) (cause : Cause) : AuthErr
  | unexpectedFailure : AuthErr
  | uncaught (e : PyErr) : AuthErr

/-- Everything one call to `get_token` produces: the returned value or raised
exception, the cache state left behind, the number of network requests
issued, and the sleeps performed, in seconds and in order. -/
structure OAuthRun where
  result : Except AuthErr (Option Json)
  state : OAuthState
  calls : Nat
  sleeps : List Int

/-- Lines 36-39 of `oauth.py`: `payload["access_token"]` is stored first, then
`self._exp = time.time() + int(payload.get("expires_in", 3600))`; an exception
from the second line leaves the token updated but the expiry stale. -/
def storeToken (payload : Json) (now : Int) (st : OAuthState) (calls : Nat)
    (sleeps : List Int) : OAuthRun :=
  match pySubscript payload "access_token" with
  | .error e => ⟨.error (.uncaught e), st, calls, sleeps⟩
  | .ok tok =>
    let st1 : OAuthState := ⟨some tok, st._exp⟩
    match pyGetDefault payload "expires_in" (.num 3600) with
    | .error e => ⟨.error (.uncaught e), st1, calls, sleeps⟩
    | .ok rawExp =>
      match pyInt rawExp with
      | .error e => ⟨.error (.uncaught e), st1, calls, sleeps⟩
      | .ok expiresIn => ⟨.ok (some tok), ⟨some tok, now + expiresIn⟩, calls, sleeps⟩

/-- The `for attempt in range(1, retires+1)` loop of `get_token`.  `left` is
how many iterations the range still holds (`retires + 1 - attempt` at every
call site); `calls` counts network requests actually sent and `sleeps` the
backoffs performed.  Each iteration evaluates the line-29 call, which raises
`TypeError` uncaught, so on every entry with an iteration remaining the loop
terminates at once: no request sent, no sleep, no state change.  The `.ok`
branch translates the unreachable lines 30-46: an `HTTPError` from
`raise_for_status` and a `JSONDecodeError` from `r.json()` are both
`RequestException`s caught and retried by the `except` clause there. -/
def getTokenLoop (retires : Nat) (backoff : Int) (now : Int) :
    Nat → Nat → OAuthState → Nat → List Int → OAuthRun
  | _, 0, st, calls, sleeps => ⟨.error .unexpectedFailure, st, calls, sleeps⟩
  | attempt, left + 1, st, calls, sleeps =>
    match requestsPostAuthDict with
    | .error e => ⟨.error (.uncaught e), st, calls, sleeps⟩
    | .ok out =>
      match out with
      | .transport =>
        if attempt < retires then
          getTokenLoop retires backoff now (attempt + 1) left st (calls + 1)
            (sleeps ++ [(attempt : Int) * backoff])
        else ⟨.error (.requestFailed retires .transportExc), st, calls + 1, sleeps⟩
      | .resp status body =>
        if statusRetry status attempt retires then
          getTokenLoop retires backoff now (attempt + 1) left st (calls + 1)
            (sleeps ++ [(attempt : Int) * backoff])
        else if raiseForStatus status then
          if attempt < retires then
            getTokenLoop retires backoff now (attempt + 1) left st (calls + 1)
              (sleeps ++ [(attempt : Int) * backoff])
          else ⟨.error (.requestFailed retires (.httpError status)), st, calls + 1, sleeps⟩
        else
          match body with
          | none =>
            if attempt < retires then
              getTokenLoop retires backoff now (attempt + 1) left st (calls + 1)
                (sleeps ++ [(attempt : Int) * backoff])
            else ⟨.error (.requestFailed retires .jsonDecode), st, calls + 1, sleeps⟩
          | some payload => storeToken payload now st (calls + 1) sleeps

/-- Embedding of `SpotifyOAuthClient.get_token`.  The guard is the source's
line 20 verbatim: `if self._token or time.time() < self._exp - 30: return
self._token` — note the `or`.  A call that does not take the cached path
enters the loop and raises the uncaught `TypeError` of the line-29 call. -/
def get_token (retires : Nat) (backoff : Int) (now : Int)
    (st : OAuthState) : OAuthRun :=
  if pyTruthyOpt st._token = true ∨ now < st._exp - 30 then ⟨.ok st._token, st, 0, []⟩
  else getTokenLoop retires backoff now 1 retires st 0 []

/-- The exceptions `SpotifyClient.get_spotify` can raise: the
`RuntimeError("API called failed")` — which, unlike the oauth client's
message, records neither the attempt count nor the last exception — and
Python errors no `except` clause catches, such as the `TypeError` from the
malformed line-23 call. -/
inductive FetchErr where
  | apiFailed : FetchErr
  | uncaught (e : PyErr) : FetchErr
deriving DecidableEq, Repr

/-- Everything one run of the `get_spotify` retry loop produces.  A result of
`.ok none` is the Python `None` the function implicitly returns when the loop
body runs no iteration (`retries = 0`; the loop has no trailing `raise`), and
`.error (.uncaught e)` an exception no `except` clause catches. -/
structure FetchRun where
  result : Except FetchErr (Option Json)
  calls : Nat
  sleeps : List Int

/-- The `for attempt in range(1, retries+1)` loop of `get_spotify`; same
shape as `getTokenLoop`.  Each iteration evaluates the line-23 call, which
raises `TypeError` uncaught, so the first iteration ends the function: no
request sent, no sleep, no retry.  The `.ok` branch translates the
unreachable lines 24-38, where falling off the loop would return `None` and
a final-attempt failure would raise the bare `RuntimeError`. -/
def getSpotifyLoop (retries : Nat) (backoff : Int) :
    Nat → Nat → Nat → List Int → FetchRun
  | _, 0, calls, sleeps => ⟨.ok none, calls, sleeps⟩
  | attempt, left + 1, calls, sleeps =>
    match requestsGetPositional with
    | .error e => ⟨.error (.uncaught e), calls, sleeps⟩
    | .ok out =>
      match out with
      | .transport =>
        if attempt < retries then
          getSpotifyLoop retries backoff (attempt + 1) left (calls + 1)
            (sleeps ++ [(attempt : Int) * backoff])
        else ⟨.error .apiFailed, calls + 1, sleeps⟩
      | .resp status body =>
        if statusRetry status attempt retries then
          getSpotifyLoop retries backoff (attempt + 1) left (calls + 1)
            (sleeps ++ [(attempt : Int) * backoff])
        else if raiseForStatus status then
          if attempt < retries then
            getSpotifyLoop retries backoff (attempt + 1) left (calls + 1)
              (sleeps ++ [(attempt : Int) * backoff])
          else ⟨.error .apiFailed, calls + 1, sleeps⟩
        else
          match body with
          | none =>
            if attempt < retries then
              getSpotifyLoop retries backoff (attempt + 1) left (calls + 1)
                (sleeps ++ [(attempt : Int) * backoff])
            else ⟨.error .apiFailed, calls + 1, sleeps⟩
          | some data => ⟨.ok (some data), calls + 1, sleeps⟩

/-- Embedding of `SpotifyClient.get_spotify`: first obtains a token through
the auth client with `get_token`'s default arguments (3 attempts, unit
backoff), propagating its exception; then runs the search retry loop. -/
def get_spotify (retries : Nat) (backoff : Int)
    (now : Int) (st : OAuthState) : OAuthRun × Option FetchRun :=
  let tr := get_token 3 1 now st
  match tr.result with
  | .error _ => (tr, none)
  | .ok _ => (tr, some (getSpotifyLoop retries backoff 1 retries 0 []))

/-! ## Raw landing writer (`Spotify/raw_writer.py`)

Paths are strings; `pathAppend` models joining one further `pathlib` part
(an absolute part replaces what came before, an empty part is skipped).
`json.loads` is the oracle `parse`, `hashlib.md5(...).hexdigest()` the oracle
`md5`, the wall clock the record `TimeInfo`, and the Databricks `dbutils`
handle availability the flag `hasDbutils`.  gzip compression is a bijection
and is abstracted away: the data file stores the text written into the gzip
stream. -/

/-- Python `s.startswith(pre)` over the character list (structural, so the
kernel can evaluate it). -/
def strStartsWith (s pre : String) : Bool :=
  s.data.take pre.data.length == pre.data

/-- Python `s.endswith(suf)` over the character list. -/
def strEndsWith (s suf : String) : Bool :=
  suf.data.length ≤ s.data.length &&
    s.data.drop (s.data.length - suf.data.length) == suf.data

/-- Python `s[n:]` over the character list. -/
def strDrop (s : String) (n : Nat) : String := ⟨s.data.drop n⟩

/-- Python `s.strip()`: leading and trailing whitespace removed. -/
def pyStrip (s : String) : String :=
  ⟨((s.data.dropWhile Char.isWhitespace).reverse.dropWhile Char.isWhitespace).reverse⟩

/-- Python `s.replace(a, b)` for one-character `a` and `b` (the only uses in
the source are `"/" -> "_"` and a newline to a space). -/
def pyReplaceChar (s : String) (a b : Char) : String :=
  ⟨s.data.map (fun c => if c = a then b else c)⟩

/-- The pieces of a character list split at `/`. -/
def splitSlashAux : List Char → List Char → List (List Char)
  | [], acc => [acc.reverse]
  | c :: cs, acc =>
    if c = '/' then acc.reverse :: splitSlashAux cs [] else splitSlashAux cs (c :: acc)

/-- Joining path segments with the `/` separator. -/
def joinSlash : List String → String
  | [] => ""
  | [x] => x
  | x :: rest => x ++ "/" ++ joinSlash rest

/-- Joining one further `pathlib` part onto a path string. -/
def pathAppend (acc p : String) : String :=
  if p = "" then acc
  else if strStartsWith p "/" then p
  else if acc = "" then p
  else if strEndsWith acc "/" then acc ++ p
  else acc ++ "/" ++ p

/-- `Path(*parts)` as a fold of `pathAppend`. -/
def pathJoin (parts : List String) : String := parts.foldl pathAppend ""

/-- Embedding of `_to_local_path`: a `dbfs:/` URI is re-rooted under
`/dbfs`. -/
def _to_local_path (s : String) : String :=
  if strStartsWith s "dbfs:/" then pathAppend "/dbfs" (strDrop s 6) else s

/-- Embedding of `_is_dbfs_path`. -/
def _is_dbfs_path (p : String) : Bool := strStartsWith p "/dbfs/"

/-- Embedding of `_from_local_to_uri`. -/
def _from_local_to_uri (p base_dir : String) : String :=
  if strStartsWith base_dir "dbfs:/" && strStartsWith p "/dbfs/" then
    "dbfs:/" ++ strDrop p 6
  else p

/-- The wall clock of one landing call: `ts.strftime("%Y-%m-%d")`,
`ts.strftime("%Y%m%dT%H%M%S%fZ")` and `_now_iso()`. -/
structure TimeInfo where
  date : String
  autoRid : String
  iso : String

/-- The manifest dictionary assembled by `write_raw_jsonl`, field for
field (its `json.dumps` serialization is determined by these fields). -/
structure Manifest where
  dataset : String
  path : String
  partitions : List (String × String)
  run_id : String
  page : Int
  record_count : Nat
  checksum_md5 : String
  fetched_at : String

/-- Contents of one file of the modelled store. -/
inductive FileContent where
  | gzText (line : String) : FileContent
  | text (s : String) : FileContent
  | manifestFile (m : Manifest) : FileContent

/-- The filesystem: created directories, files, and the chronological log of
file writes (paths, most recent last). -/
structure FS where
  dirs : List String
  files : List (String × FileContent)
  writes : List String

/-- The empty filesystem. -/
def FS.empty : FS := ⟨[], [], []⟩

/-- Reading a file. -/
def FS.read (fs : FS) (p : String) : Option FileContent :=
  ((fs.files.filter (fun kv => kv.1 == p)).head?).map Prod.snd

/-- `Path.exists()`. -/
def FS.hasFile (fs : FS) (p : String) : Bool :=
  fs.files.any (fun kv => kv.1 == p)

/-- Writing (or overwriting) a file, logging the write. -/
def FS.write (fs : FS) (p : String) (c : FileContent) : FS :=
  ⟨fs.dirs, (p, c) :: fs.files.filter (fun kv => kv.1 != p), fs.writes ++ [p]⟩

/-- `mkdirs` (with parents; recorded as the full directory path). -/
def FS.mkdirs (fs : FS) (d : String) : FS := ⟨d :: fs.dirs, fs.files, fs.writes⟩

/-- The parent directory of a path (enough of `Path.parent` for the paths the
writer builds). -/
def parentDir (p : String) : String :=
  let parts := (splitSlashAux p.data []).map (fun l => (⟨l⟩ : String))
  if parts.length ≤ 1 then "." else joinSlash parts.dropLast

/-- The errors `write_raw_jsonl` can raise: the `ValueError` for unparseable
`raw_text`, and the `RuntimeError` when a DBFS path is used with no
`dbutils` available (the spec's `ValidationError` and `StorageError`). -/
inductive LandErr where
  | validationError : LandErr
  | storageError : LandErr
deriving DecidableEq, Repr

/-- Embedding of `_atomic_write_text` (and of `dbutils.fs.put`): on a DBFS
path the `dbutils` handle is checked first; then either branch creates the
parent directory and stores the text at `path` (temp-and-rename is invisible
at this level). -/
def _atomic_write_text (hasDbutils : Bool) (fs : FS) (path : String)
    (c : FileContent) : Except LandErr FS :=
  if _is_dbfs_path path && !hasDbutils then .error .storageError
  else .ok ((fs.mkdirs (parentDir path)).write path c)

/-- The returned dictionary of externally-displayed URIs. -/
structure LandResult where
  data : String
  manifest : String
  checksum : String
deriving DecidableEq, Repr

/-- `run_id or ts.strftime(...)`: Python `or` falls through on the empty
string. -/
def ridOf (run_id : Option String) (t : TimeInfo) : String :=
  match run_id with
  | none => t.autoRid
  | some r => if r == "" then t.autoRid else r

/-- One partition value sanitized: `str(v).strip().replace("/", "_")`. -/
def sanitizePart (v : String) : String := pyReplaceChar (pyStrip v) '/' '_'

/-- Lines 104-113 of `raw_writer.py`: the partitioned destination directory. -/
def destDirOf (base_dir dataset : String) (partitions : List (String × String))
    (t : TimeInfo) (rid : String) : String :=
  pathJoin ([_to_local_path base_dir, dataset]
    ++ partitions.map (fun kv => kv.1 ++ "=" ++ sanitizePart kv.2)
    ++ ["dt=" ++ t.date, "run_id=" ++ rid])

/-- The file stem `dest_dir / f"page=..."`. -/
def stemOf (destDir : String) (page : Int) : String :=
  pathAppend destDir ("page=" ++ toString page)

/-- Normalization of the payload into the stored single line:
`raw_text.strip().replace("\n", " ") + "\n"`. -/
def normalizeLine (raw_text : String) : String :=
  pyReplaceChar (pyStrip raw_text) '\n' ' ' ++ "\n"

/-- Lines 148-152 of `raw_writer.py`: the best-effort record count
`len(obj.get("artists", {}).get("items", []))`, with `1` on any
exception. -/
def recordCount (obj : Json) : Nat :=
  match pyGetDefault obj "artists" (.obj []) with
  | .error _ => 1
  | .ok a =>
    match pyGetDefault a "items" (.arr []) with
    | .error _ => 1
    | .ok it =>
      match pyLen it with
      | .error _ => 1
      | .ok len => len

/-- Embedding of `write_raw_jsonl`.  `parse` is `json.loads` on text (`none`
when the text is not valid JSON), `md5` is `_checksum_md5`.  The result pairs
the filesystem as left behind (errors leave completed mutations in place;
none precede either error) with the returned URIs or the raised error. -/
def write_raw_jsonl (parse : String → Option Json) (md5 : String → String)
    (hasDbutils : Bool) (t : TimeInfo) (raw_text base_dir dataset : String)
    (partitions : List (String × String)) (run_id : Option String) (page : Int)
    (overwrite : Bool) (fs : FS) : FS × Except LandErr LandResult :=
  match parse raw_text with
  | none => (fs, .error .validationError)
  | some _ =>
    let rid := ridOf run_id t
    let dest_dir := destDirOf base_dir dataset partitions t rid
    if _is_dbfs_path dest_dir && !hasDbutils then (fs, .error .storageError)
    else
      let fs1 := fs.mkdirs dest_dir
      let stem := stemOf dest_dir page
      let data_path := stem ++ ".jsonl.gz"
      let manifest_path := stem ++ "._manifest.json"
      let checksum_path := stem ++ "._checksum.txt"
      let dataStep : Except LandErr FS :=
        if fs1.hasFile data_path && !overwrite then .ok fs1
        else if _is_dbfs_path data_path && !hasDbutils then .error .storageError
        else .ok ((fs1.mkdirs (parentDir data_path)).write data_path
          (.gzText (normalizeLine raw_text)))
      match dataStep with
      | .error e => (fs1, .error e)
      | .ok fs2 =>
        let raw := raw_text
        let checksum := md5 raw
        match _atomic_write_text hasDbutils fs2 checksum_path (.text checksum) with
        | .error e => (fs2, .error e)
        | .ok fs3 =>
          let rc :=
            match parse raw with
            | some obj => recordCount obj
            | none => 1
          let manifest : Manifest :=
            { dataset := dataset
              path := _from_local_to_uri data_path base_dir
              partitions := partitions
              run_id := rid
              page := page
              record_count := rc
              checksum_md5 := checksum
              fetched_at := t.iso }
          match _atomic_write_text hasDbutils fs3 manifest_path
              (.manifestFile manifest) with
          | .error e => (fs3, .error e)
          | .ok fs4 =>
            (fs4, .ok
              { data := _from_local_to_uri data_path base_dir
                manifest := _from_local_to_uri manifest_path base_dir
                checksum := _from_local_to_uri checksum_path base_dir })

/-- The data file path `dest_dir / f"page=..." + ".jsonl.gz"` of one landing
call. -/
def dataPathOf (base ds : String) (ps : List (String × String)) (t : TimeInfo)
    (rid : Option String) (page : Int) : String :=
  stemOf (destDirOf base ds ps t (ridOf rid t)) page ++ ".jsonl.gz"

/-- The manifest sidecar path of one landing call. -/
def manifestPathOf (base ds : String) (ps : List (String × String)) (t : TimeInfo)
    (rid : Option String) (page : Int) : String :=
  stemOf (destDirOf base ds ps t (ridOf rid t)) page ++ "._manifest.json"

/-- The checksum sidecar path of one landing call. -/
def checksumPathOf (base ds : String) (ps : List (String × String)) (t : TimeInfo)
    (rid : Option String) (page : Int) : String :=
  stemOf (destDirOf base ds ps t (ridOf rid t)) page ++ "._checksum.txt"

/-- Modelled from the spec (amended C4): the record count equals the length
of `artists.items` when `artists` and `items` are present (a Python length:
sequence, mapping or string); an absent `artists` or `items` key falls back
to the empty defaults and yields 0, not the sentinel; the sentinel 1 appears
only when the lookup chain or the length raises — a non-mapping document or
`artists` value, or an `items` value with no length. -/
def recordCountAmended (doc : Json) : Nat :=
  match doc with
  | .obj kvs =>
    match (kvs.filter (fun kv => kv.1 == "artists")).head? with
    | none => 0
    | some kvA =>
      match kvA.2 with
      | .obj kvs2 =>
        match (kvs2.filter (fun kv => kv.1 == "items")).head? with
        | none => 0
        | some kvI =>
          match kvI.2 with
          | .arr xs => xs.length
          | .obj kvs3 => kvs3.length
          | .str s => s.data.length
          | _ => 1
      | _ => 1
  | _ => 1

/-! ## Theorems -/

lemma any_key_eq_isSome {β : Type} (kvs : List (String × β)) (k : String) :
    kvs.any (fun kv => kv.1 == k) = ((kvs.filter (fun kv => kv.1 == k)).head?).isSome := by
  induction kvs with
  | nil => rfl
  | cons kv rest ih =>
    by_cases h : kv.1 == k
    · simp [List.any_cons, List.filter_cons, h]
    · simp [List.any_cons, List.filter_cons, h, ih]

lemma validateItems_eq_spec (xs : List Json) (i : Nat) :
    validateItems xs i = specItemsCheck xs i := by
  induction xs generalizing i with
  | nil => rfl
  | cons a rest ih =>
    cases a with
    | obj kvs =>
      simp only [validateItems, specItemsCheck, _ensure_dict]
      rcases h : requiredArtistKeys.filter (fun k => !(kvs.any (fun kv => kv.1 == k))) with _ | ⟨m, ms⟩
      · simp only [h, List.isEmpty_nil, if_pos]
        simpa [Bind.bind, Except.bind] using ih (i + 1)
      · simp [h, Bind.bind, Except.bind]
    | null => simp [validateItems, specItemsCheck, _ensure_dict, Bind.bind, Except.bind]
    | bool b => simp [validateItems, specItemsCheck, _ensure_dict, Bind.bind, Except.bind]
    | num n => simp [validateItems, specItemsCheck, _ensure_dict, Bind.bind, Except.bind]
    | str s => simp [validateItems, specItemsCheck, _ensure_dict, Bind.bind, Except.bind]
    | arr ys => simp [validateItems, specItemsCheck, _ensure_dict, Bind.bind, Except.bind]

lemma validate_json_eq_spec (payload : Json) :
    validate_json payload = validateSpec payload := by
  cases payload with
  | obj kvs =>
    rcases h : (kvs.filter (fun kv => kv.1 == "artists")).head? with _ | ⟨kvA⟩
    · have ha : kvs.any (fun kv => kv.1 == "artists") = false := by
        rw [any_key_eq_isSome, h]; rfl
      simp [validate_json, validateSpec, _ensure_dict, ha, h, Bind.bind, Except.bind]
    · have ha : kvs.any (fun kv => kv.1 == "artists") = true := by
        rw [any_key_eq_isSome, h]; rfl
      have hidx : indexAfterEnsure (.obj kvs) "artists" = kvA.2 := by
        simp [indexAfterEnsure, pySubscript, h]
      cases hA : kvA.2 with
      | obj kvs2 =>
        rcases h2 : (kvs2.filter (fun kv => kv.1 == "items")).head? with _ | ⟨kvI⟩
        · have hb : kvs2.any (fun kv => kv.1 == "items") = false := by
            rw [any_key_eq_isSome, h2]; rfl
          simp [validate_json, validateSpec, _ensure_dict, ha, hidx, hA, hb, h, h2,
            Bind.bind, Except.bind]
        · have hb : kvs2.any (fun kv => kv.1 == "items") = true := by
            rw [any_key_eq_isSome, h2]; rfl
          have hidx2 : indexAfterEnsure (.obj kvs2) "items" = kvI.2 := by
            simp [indexAfterEnsure, pySubscript, h2]
          cases hI : kvI.2 with
          | arr xs =>
            cases xs with
            | nil =>
              simp [validate_json, validateSpec, _ensure_dict, _ensure_list, ha, hb,
                hidx, hidx2, hA, hI, h, h2, Bind.bind, Except.bind]
            | cons x rest =>
              simp [validate_json, validateSpec, _ensure_dict, _ensure_list, ha, hb,
                hidx, hidx2, hA, hI, h, h2, Bind.bind, Except.bind, validateItems_eq_spec]
          | null =>
            simp [validate_json, validateSpec, _ensure_dict, _ensure_list, ha, hb,
              hidx, hidx2, hA, hI, h, h2, Bind.bind, Except.bind]
          | bool b =>
            simp [validate_json, validateSpec, _ensure_dict, _ensure_list, ha, hb,
              hidx, hidx2, hA, hI, h, h2, Bind.bind, Except.bind]
          | num n =>
            simp [validate_json, validateSpec, _ensure_dict, _ensure_list, ha, hb,
              hidx, hidx2, hA, hI, h, h2, Bind.bind, Except.bind]
          | str s =>
            simp [validate_json, validateSpec, _ensure_dict, _ensure_list, ha, hb,
              hidx, hidx2, hA, hI, h, h2, Bind.bind, Except.bind]
          | obj kvs3 =>
            simp [validate_json, validateSpec, _ensure_dict, _ensure_list, ha, hb,
              hidx, hidx2, hA, hI, h, h2, Bind.bind, Except.bind]
      | null =>
        simp [validate_json, validateSpec, _ensure_dict, ha, hidx, hA, h,
          Bind.bind, Except.bind]
      | bool b =>
        simp [validate_json, validateSpec, _ensure_dict, ha, hidx, hA, h,
          Bind.bind, Except.bind]
      | num n =>
        simp [validate_json, validateSpec, _ensure_dict, ha, hidx, hA, h,
          Bind.bind, Except.bind]
      | str s =>
        simp [validate_json, validateSpec, _ensure_dict, ha, hidx, hA, h,
          Bind.bind, Except.bind]
      | arr ys =>
        simp [validate_json, validateSpec, _ensure_dict, ha, hidx, hA, h,
          Bind.bind, Except.bind]
  | null => simp [validate_json, validateSpec, _ensure_dict, Bind.bind, Except.bind]
  | bool b => simp [validate_json, validateSpec, _ensure_dict, Bind.bind, Except.bind]
  | num n => simp [validate_json, validateSpec, _ensure_dict, Bind.bind, Except.bind]
  | str s => simp [validate_json, validateSpec, _ensure_dict, Bind.bind, Except.bind]
  | arr ys => simp [validate_json, validateSpec, _ensure_dict, Bind.bind, Except.bind]

lemma specItemsCheck_ok_iff (xs : List Json) (i : Nat) :
    specItemsCheck xs i = .ok () ↔
      xs.all (fun a => requiredArtistKeys.all (hasKey a)) = true := by
  induction xs generalizing i with
  | nil => simp [specItemsCheck]
  | cons a rest ih =>
    cases a with
    | obj kvs =>
      rcases hf : requiredArtistKeys.filter (fun k => !(kvs.any (fun kv => kv.1 == k))) with
        _ | ⟨m, ms⟩
      · have hall : requiredArtistKeys.all (hasKey (.obj kvs)) = true := by
          rw [List.all_eq_true]
          intro k hk
          have := List.filter_eq_nil_iff.mp hf k hk
          simpa [hasKey] using this
        simp [specItemsCheck, hf, hall, ih]
      · have hnall : requiredArtistKeys.all (hasKey (.obj kvs)) = false := by
          have hm : m ∈ requiredArtistKeys.filter
              (fun k => !(kvs.any (fun kv => kv.1 == k))) := by
            rw [hf]; exact List.mem_cons_self m ms
          rw [List.mem_filter] at hm
          rw [List.all_eq_false]
          have h2 : (kvs.any fun kv => kv.1 == m) = false := by
            cases hx : kvs.any fun kv => kv.1 == m
            · rfl
            · rw [hx] at hm; exact absurd hm.2 (by simp)
          exact ⟨m, hm.1, by simp [hasKey, h2]⟩
        simp [specItemsCheck, hf, hnall]
    | null => simp [specItemsCheck, hasKey, requiredArtistKeys]
    | bool b => simp [specItemsCheck, hasKey, requiredArtistKeys]
    | num n => simp [specItemsCheck, hasKey, requiredArtistKeys]
    | str s => simp [specItemsCheck, hasKey, requiredArtistKeys]
    | arr ys => simp [specItemsCheck, hasKey, requiredArtistKeys]

lemma validateSpec_ok_iff (p : Json) :
    validateSpec p = .ok () ↔ conforms p = true := by
  cases p with
  | obj kvs =>
    rcases h : (kvs.filter (fun kv => kv.1 == "artists")).head? with _ | ⟨kvA⟩
    · have ha : kvs.any (fun kv => kv.1 == "artists") = false := by
        rw [any_key_eq_isSome, h]; rfl
      simp [validateSpec, conforms, hasKey, ha, h]
    · have ha : kvs.any (fun kv => kv.1 == "artists") = true := by
        rw [any_key_eq_isSome, h]; rfl
      have hidx : indexAfterEnsure (.obj kvs) "artists" = kvA.2 := by
        simp [indexAfterEnsure, pySubscript, h]
      cases hA : kvA.2 with
      | obj kvs2 =>
        rcases h2 : (kvs2.filter (fun kv => kv.1 == "items")).head? with _ | ⟨kvI⟩
        · have hb : kvs2.any (fun kv => kv.1 == "items") = false := by
            rw [any_key_eq_isSome, h2]; rfl
          simp [validateSpec, conforms, hasKey, ha, hidx, hA, hb, h, h2]
        · have hb : kvs2.any (fun kv => kv.1 == "items") = true := by
            rw [any_key_eq_isSome, h2]; rfl
          have hidx2 : indexAfterEnsure (.obj kvs2) "items" = kvI.2 := by
            simp [indexAfterEnsure, pySubscript, h2]
          cases hI : kvI.2 with
          | arr xs =>
            cases xs with
            | nil => simp [validateSpec, conforms, hasKey, ha, hidx, hA, hb, hidx2, hI, h, h2]
            | cons x rest =>
              simp [validateSpec, conforms, hasKey, ha, hidx, hA, hb, hidx2, hI, h, h2,
                specItemsCheck_ok_iff]
          | null => simp [validateSpec, conforms, hasKey, ha, hidx, hA, hb, hidx2, hI, h, h2]
          | bool b => simp [validateSpec, conforms, hasKey, ha, hidx, hA, hb, hidx2, hI, h, h2]
          | num n => simp [validateSpec, conforms, hasKey, ha, hidx, hA, hb, hidx2, hI, h, h2]
          | str s => simp [validateSpec, conforms, hasKey, ha, hidx, hA, hb, hidx2, hI, h, h2]
          | obj kvs3 => simp [validateSpec, conforms, hasKey, ha, hidx, hA, hb, hidx2, hI, h, h2]
      | null => simp [validateSpec, conforms, hasKey, ha, hidx, hA, h]
      | bool b => simp [validateSpec, conforms, hasKey, ha, hidx, hA, h]
      | num n => simp [validateSpec, conforms, hasKey, ha, hidx, hA, h]
      | str s => simp [validateSpec, conforms, hasKey, ha, hidx, hA, h]
      | arr ys => simp [validateSpec, conforms, hasKey, ha, hidx, hA, h]
  | null => simp [validateSpec, conforms, hasKey]
  | bool b => simp [validateSpec, conforms, hasKey]
  | num n => simp [validateSpec, conforms, hasKey]
  | str s => simp [validateSpec, conforms, hasKey]
  | arr ys => simp [validateSpec, conforms, hasKey]

lemma string_data_append (a b : String) : (a ++ b).data = a.data ++ b.data := by
  cases a; cases b; rfl

lemma append_ne_of_ne (a : String) {b c : String} (h : b ≠ c) : a ++ b ≠ a ++ c := by
  intro hab
  apply h
  have hdata : a.data ++ b.data = a.data ++ c.data := by
    rw [← string_data_append, ← string_data_append, hab]
  exact String.ext (List.append_cancel_left hdata)

lemma read_mkdirs (fs : FS) (d p : String) : (fs.mkdirs d).read p = fs.read p := rfl

lemma hasFile_mkdirs (fs : FS) (d p : String) :
    (fs.mkdirs d).hasFile p = fs.hasFile p := rfl

lemma writes_mkdirs (fs : FS) (d : String) : (fs.mkdirs d).writes = fs.writes := rfl

lemma read_write_self (fs : FS) (p : String) (c : FileContent) :
    (fs.write p c).read p = some c := by
  simp [FS.write, FS.read, List.filter_cons]

lemma filter_key_sub (files : List (String × FileContent)) (p q : String) (h : q ≠ p) :
    (files.filter (fun kv => kv.1 != p)).filter (fun kv => kv.1 == q)
      = files.filter (fun kv => kv.1 == q) := by
  induction files with
  | nil => rfl
  | cons kv rest ih =>
    have h2 : p ≠ q := Ne.symm h
    by_cases hq : kv.1 = q
    · simp [List.filter_cons, hq, h, h2, ih]
    · by_cases hp2 : kv.1 = p
      · simp [List.filter_cons, hp2, hq, h, h2, ih]
      · simp [List.filter_cons, hp2, hq, ih]

lemma read_write_ne (fs : FS) (p q : String) (c : FileContent) (h : q ≠ p) :
    (fs.write p c).read q = fs.read q := by
  have hpq : (p == q) = false := by
    simp only [beq_eq_false_iff_ne]
    exact fun hh => h hh.symm
  simp [FS.write, FS.read, List.filter_cons, hpq, filter_key_sub fs.files p q h]

lemma hasFile_eq_isSome_read (fs : FS) (p : String) :
    fs.hasFile p = (fs.read p).isSome := by
  simp only [FS.hasFile, FS.read, any_key_eq_isSome]
  cases (fs.files.filter (fun kv => kv.1 == p)).head? <;> rfl

lemma write_raw_jsonl_success_inv
    {parse : String → Option Json} {md5 : String → String} {hd : Bool} {t : TimeInfo}
    {raw base ds : String} {ps : List (String × String)} {rid : Option String}
    {page : Int} {ow : Bool} {fs fs2 : FS} {out : LandResult}
    (h : write_raw_jsonl parse md5 hd t raw base ds ps rid page ow fs = (fs2, .ok out)) :
    ∃ j, parse raw = some j ∧
      fs2.read (manifestPathOf base ds ps t rid page) = some (.manifestFile
        ⟨ds, _from_local_to_uri (dataPathOf base ds ps t rid page) base, ps, ridOf rid t,
         page, recordCount j, md5 raw, t.iso⟩) ∧
      fs2.read (checksumPathOf base ds ps t rid page) = some (.text (md5 raw)) ∧
      fs2.read (dataPathOf base ds ps t rid page) =
        (if fs.hasFile (dataPathOf base ds ps t rid page) && !ow then
          fs.read (dataPathOf base ds ps t rid page)
         else some (.gzText (normalizeLine raw))) ∧
      fs2.writes = fs.writes ++
        (if fs.hasFile (dataPathOf base ds ps t rid page) && !ow then
          [checksumPathOf base ds ps t rid page, manifestPathOf base ds ps t rid page]
         else [dataPathOf base ds ps t rid page, checksumPathOf base ds ps t rid page,
           manifestPathOf base ds ps t rid page]) ∧
      out = ⟨_from_local_to_uri (dataPathOf base ds ps t rid page) base,
        _from_local_to_uri (manifestPathOf base ds ps t rid page) base,
        _from_local_to_uri (checksumPathOf base ds ps t rid page) base⟩ := by
  cases hp : parse raw with
  | none =>
    exfalso
    unfold write_raw_jsonl at h
    rw [hp] at h
    exact Except.noConfusion (congrArg Prod.snd h)
  | some j =>
    refine ⟨j, rfl, ?_⟩
    have hnm : manifestPathOf base ds ps t rid page ≠ checksumPathOf base ds ps t rid page :=
      append_ne_of_ne _ (by decide)
    have hdm : dataPathOf base ds ps t rid page ≠ manifestPathOf base ds ps t rid page :=
      append_ne_of_ne _ (by decide)
    have hdc : dataPathOf base ds ps t rid page ≠ checksumPathOf base ds ps t rid page :=
      append_ne_of_ne _ (by decide)
    unfold write_raw_jsonl at h
    rw [hp] at h
    simp only [dataPathOf, manifestPathOf, checksumPathOf] at *
    cases hstore : _is_dbfs_path (destDirOf base ds ps t (ridOf rid t)) && !hd with
    | true =>
      exfalso
      rw [if_pos hstore] at h
      exact Except.noConfusion (congrArg Prod.snd h)
    | false =>
      rw [if_neg (by simp [hstore])] at h
      cases hskip : fs.hasFile (stemOf (destDirOf base ds ps t (ridOf rid t)) page
          ++ ".jsonl.gz") && !ow with
      | true =>
        simp only [hasFile_mkdirs, hskip] at h
        cases hchk : _is_dbfs_path (stemOf (destDirOf base ds ps t (ridOf rid t)) page
            ++ "._checksum.txt") && !hd with
        | true =>
          exfalso
          simp only [_atomic_write_text, hchk, if_true, if_pos] at h
          exact Except.noConfusion (congrArg Prod.snd h)
        | false =>
          cases hman : _is_dbfs_path (stemOf (destDirOf base ds ps t (ridOf rid t)) page
              ++ "._manifest.json") && !hd with
          | true =>
            exfalso
            simp only [_atomic_write_text, hchk, hman, Bool.false_eq_true, if_false,
              if_true] at h
            exact Except.noConfusion (congrArg Prod.snd h)
          | false =>
            simp only [_atomic_write_text, hchk, hman, Bool.false_eq_true, if_false,
              if_true, hp] at h
            obtain ⟨hfs, hout⟩ := (Prod.mk.injEq ..).mp h
            rw [Except.ok.injEq] at hout
            subst hfs
            subst hout
            simp only [hskip, eq_self_iff_true, if_true]
            refine ⟨read_write_self .., ?_, ?_, ?_, trivial⟩
            · rw [read_write_ne _ _ _ _ (Ne.symm hnm), read_mkdirs, read_write_self]
            · rw [read_write_ne _ _ _ _ hdm, read_mkdirs,
                read_write_ne _ _ _ _ hdc, read_mkdirs, read_mkdirs]
            · simp [FS.write, FS.mkdirs]
      | false =>
        simp only [hasFile_mkdirs, hskip, Bool.false_eq_true, if_false] at h
        cases hdata : _is_dbfs_path (stemOf (destDirOf base ds ps t (ridOf rid t)) page
            ++ ".jsonl.gz") && !hd with
        | true =>
          exfalso
          simp only [hdata, if_true, if_pos] at h
          exact Except.noConfusion (congrArg Prod.snd h)
        | false =>
          simp only [hdata, Bool.false_eq_true, if_false] at h
          cases hchk : _is_dbfs_path (stemOf (destDirOf base ds ps t (ridOf rid t)) page
              ++ "._checksum.txt") && !hd with
          | true =>
            exfalso
            simp only [_atomic_write_text, hchk, if_true, if_pos] at h
            exact Except.noConfusion (congrArg Prod.snd h)
          | false =>
            cases hman : _is_dbfs_path (stemOf (destDirOf base ds ps t (ridOf rid t)) page
                ++ "._manifest.json") && !hd with
            | true =>
              exfalso
              simp only [_atomic_write_text, hchk, hman, Bool.false_eq_true, if_false,
                if_true] at h
              exact Except.noConfusion (congrArg Prod.snd h)
            | false =>
              simp only [_atomic_write_text, hchk, hman, Bool.false_eq_true, if_false,
                if_true, hp] at h
              obtain ⟨hfs, hout⟩ := (Prod.mk.injEq ..).mp h
              rw [Except.ok.injEq] at hout
              subst hfs
              subst hout
              simp only [hskip, Bool.false_eq_true, if_false]
              refine ⟨read_write_self .., ?_, ?_, ?_, trivial⟩
              · rw [read_write_ne _ _ _ _ (Ne.symm hnm), read_mkdirs, read_write_self]
              · rw [read_write_ne _ _ _ _ hdm, read_mkdirs,
                  read_write_ne _ _ _ _ hdc, read_mkdirs, read_write_self]
              · simp [FS.write, FS.mkdirs]

/-- C1: the code violates the claim.  In the state where a token is cached
but its recorded expiry is long past (token `"t"`, expiry 100, current time
1000), `get_token` performs zero network calls and returns the stale token,
because the guard on line 20 of `oauth.py` is `self._token or time.time() <
self._exp - 30` — once a token is set, the expiry is never consulted and no
refresh ever happens. -/
theorem C1_expired_token_returned_without_refresh :
    get_token 3 1 1000 ⟨some (.str "t"), 100⟩
      = ⟨.ok (some (.str "t")), ⟨some (.str "t"), 100⟩, 0, []⟩ := rfl

/-- C2: the code violates the claim categorically.  Every invocation of
`get_spotify` raises an uncaught `TypeError` instead of returning a decoded
document or raising a `FetchError`: with a valid cached token the first
search attempt performs the malformed `requests.get(BASE_URL, params,
headers, timeout=20)` call of `client.py` line 23 and dies there — zero
requests sent, zero retries, zero sleeps — and without a cached token the
token refresh already dies the same way on its dict-valued `auth`.  Both
paths are evaluated at concrete inputs. -/
theorem C2_get_spotify_raises_typeerror :
    get_spotify 3 1 0 ⟨some (.str "T"), 100000⟩
      = (⟨.ok (some (.str "T")), ⟨some (.str "T"), 100000⟩, 0, []⟩,
         some ⟨.error (.uncaught .typeError), 0, []⟩) ∧
    get_spotify 3 1 0 initState
      = (⟨.error (.uncaught .typeError), initState, 0, []⟩, none) := ⟨rfl, rfl⟩

/-- C3: no attempt is ever retried in either loop, because each loop body
raises an uncaught `TypeError` at its `requests` call on the very first
iteration (the dict-valued `auth` of `oauth.py` line 29; the positional
`params`/`headers` of `client.py` line 23).  Whenever either loop still has
an iteration to run, it terminates immediately with the uncaught error,
leaving the call count, the sleep log and the cache state untouched — the
claimed 429/5xx/transport retries, and all of the code that would perform
them, are unreachable. -/
theorem C3_no_retry_ever :
    (∀ (retires : Nat) (backoff now : Int) (attempt left calls : Nat)
       (st : OAuthState) (sleeps : List Int),
       getTokenLoop retires backoff now attempt (left + 1) st calls sleeps
         = ⟨.error (.uncaught .typeError), st, calls, sleeps⟩) ∧
    (∀ (retries : Nat) (backoff : Int) (attempt left calls : Nat)
       (sleeps : List Int),
       getSpotifyLoop retries backoff attempt (left + 1) calls sleeps
         = ⟨.error (.uncaught .typeError), calls, sleeps⟩) :=
  ⟨fun _ _ _ _ _ _ _ _ => rfl, fun _ _ _ _ _ _ => rfl⟩

/-- C6: landing text that does not parse as JSON fails with the
`ValidationError` before any filesystem mutation: the returned filesystem is
exactly the one passed in — no directory created, no file written, no write
logged. -/
theorem C6_invalid_json_no_mutation :
    ∀ (parse : String → Option Json) (md5 : String → String) (hd : Bool)
      (t : TimeInfo) (raw base ds : String) (ps : List (String × String))
      (rid : Option String) (page : Int) (ow : Bool) (fs : FS),
      parse raw = none →
      write_raw_jsonl parse md5 hd t raw base ds ps rid page ow fs
        = (fs, .error .validationError) := by
  intro parse md5 hd t raw base ds ps rid page ow fs hp
  unfold write_raw_jsonl
  rw [hp]

/-- C6 witness: the scenario from the spec — landing the non-JSON text
`not json` fails with the `ValidationError` and leaves the empty filesystem
empty. -/
theorem C6_witness :
    write_raw_jsonl (fun _ => none) (fun _ => "H") false ⟨"D", "A", "T"⟩
        "not json" "b" "d" [] (some "r") 0 false FS.empty
      = (FS.empty, .error .validationError) :=
  C6_invalid_json_no_mutation (fun _ => none) (fun _ => "H") false ⟨"D", "A", "T"⟩
    "not json" "b" "d" [] (some "r") 0 false FS.empty rfl

lemma recordCount_eq_amended (j : Json) : recordCount j = recordCountAmended j := by
  cases j with
  | obj kvs =>
    rcases h : (kvs.filter (fun kv => kv.1 == "artists")).head? with _ | ⟨kvA⟩
    · simp only [recordCount, recordCountAmended, pyGetDefault, pyLen, h,
        Option.map, Option.getD]
      rfl
    · cases hA : kvA.2 with
      | obj kvs2 =>
        rcases h2 : (kvs2.filter (fun kv => kv.1 == "items")).head? with _ | ⟨kvI⟩
        · simp only [recordCount, recordCountAmended, pyGetDefault, pyLen, h, hA, h2,
            Option.map, Option.getD]
          rfl
        · cases hI : kvI.2 with
          | arr xs =>
            simp only [recordCount, recordCountAmended, pyGetDefault, pyLen, h, hA, h2,
              hI, Option.map, Option.getD]
          | obj kvs3 =>
            simp only [recordCount, recordCountAmended, pyGetDefault, pyLen, h, hA, h2,
              hI, Option.map, Option.getD]
          | str sx =>
            simp only [recordCount, recordCountAmended, pyGetDefault, pyLen, h, hA, h2,
              hI, Option.map, Option.getD, String.length]
          | null =>
            simp only [recordCount, recordCountAmended, pyGetDefault, pyLen, h, hA, h2,
              hI, Option.map, Option.getD]
          | bool bx =>
            simp only [recordCount, recordCountAmended, pyGetDefault, pyLen, h, hA, h2,
              hI, Option.map, Option.getD]
          | num nx =>
            simp only [recordCount, recordCountAmended, pyGetDefault, pyLen, h, hA, h2,
              hI, Option.map, Option.getD]
      | null =>
        simp only [recordCount, recordCountAmended, pyGetDefault, h, hA,
          Option.map, Option.getD]
      | bool bx =>
        simp only [recordCount, recordCountAmended, pyGetDefault, h, hA,
          Option.map, Option.getD]
      | num nx =>
        simp only [recordCount, recordCountAmended, pyGetDefault, h, hA,
          Option.map, Option.getD]
      | str sx =>
        simp only [recordCount, recordCountAmended, pyGetDefault, h, hA,
          Option.map, Option.getD]
      | arr xs =>
        simp only [recordCount, recordCountAmended, pyGetDefault, h, hA,
          Option.map, Option.getD]
  | null => rfl
  | bool b => rfl
  | num n => rfl
  | str sx => rfl
  | arr xs => rfl

/-- C4 (amended): on every successful landing call the manifest's
`record_count` is the best-effort count described by `recordCountAmended`:
`len` of `artists.items` when both keys are present and the value has a
Python length, 0 (not the sentinel) when either key is absent — the code's
`.get` defaults are empty containers — and the sentinel 1 only when the
lookup or `len` raises; the computation is total, so it never fails the
write. -/
theorem C4_record_count :
    (∀ (parse : String → Option Json) (md5 : String → String) (hd : Bool)
       (t : TimeInfo) (raw base ds : String) (ps : List (String × String))
       (rid : Option String) (page : Int) (ow : Bool) (fs fs2 : FS)
       (out : LandResult) (j : Json),
       parse raw = some j →
       write_raw_jsonl parse md5 hd t raw base ds ps rid page ow fs = (fs2, .ok out) →
       ∃ m : Manifest,
         fs2.read (manifestPathOf base ds ps t rid page) = some (.manifestFile m) ∧
         m.record_count = recordCountAmended j) ∧
    (∀ j : Json, recordCount j = recordCountAmended j) := by
  constructor
  · intro parse md5 hd t raw base ds ps rid page ow fs fs2 out j hp h
    obtain ⟨j2, hp2, hman, _⟩ := write_raw_jsonl_success_inv h
    have hj : j2 = j := by rw [hp] at hp2; exact (Option.some.injEq ..).mp hp2.symm
    subst hj
    exact ⟨_, hman, recordCount_eq_amended j2⟩
  · exact recordCount_eq_amended

/-- C4 witness: a concrete successful landing whose document has both keys
present and one item; the manifest records the count 1 computed from the
document (and the theorem pins it to the amended best-effort count). -/
theorem C4_record_count_witness :
    ∃ m : Manifest,
      ((write_raw_jsonl
          (fun s => if s = "J" then
            some (.obj [("artists", .obj [("items", .arr [.null])])]) else none)
          (fun _ => "H") false ⟨"D", "A", "T"⟩ "J" "b" "d" [] (some "r") 0 false
          FS.empty).1).read (manifestPathOf "b" "d" [] ⟨"D", "A", "T"⟩ (some "r") 0)
        = some (.manifestFile m) ∧
      m.record_count = recordCountAmended
        (.obj [("artists", .obj [("items", .arr [.null])])]) :=
  C4_record_count.1
    (fun s => if s = "J" then
      some (.obj [("artists", .obj [("items", .arr [.null])])]) else none)
    (fun _ => "H") false ⟨"D", "A", "T"⟩ "J" "b" "d" [] (some "r") 0 false
    FS.empty _ _ _ rfl rfl

/-- C4 counterexample: landing the document `\x7b\x7d` (valid JSON, `artists`
absent) succeeds and writes a manifest whose `record_count` is 0, where the
claim requires the sentinel 1 when the `artists.items` path is absent. -/
theorem C4_counterexample :
    ((write_raw_jsonl (fun s => if s = "\x7b\x7d" then some (.obj []) else none)
        (fun _ => "H") false ⟨"2024-01-01", "A", "T"⟩ "\x7b\x7d" "b" "d" []
        (some "r") 0 false FS.empty).1).read
      "b/d/dt=2024-01-01/run_id=r/page=0._manifest.json"
    = some (.manifestFile ⟨"d", "b/d/dt=2024-01-01/run_id=r/page=0.jsonl.gz", [],
        "r", 0, 0, "H", "T"⟩) := rfl

/-- C10: on every successful landing call the manifest sidecar's
`checksum_md5` field equals the entire content of the checksum sidecar
written by the same call. -/
theorem C10_sidecars_consistent :
    ∀ (parse : String → Option Json) (md5 : String → String) (hd : Bool)
      (t : TimeInfo) (raw base ds : String) (ps : List (String × String))
      (rid : Option String) (page : Int) (ow : Bool) (fs fs2 : FS)
      (out : LandResult),
      write_raw_jsonl parse md5 hd t raw base ds ps rid page ow fs = (fs2, .ok out) →
      ∃ m : Manifest,
        fs2.read (manifestPathOf base ds ps t rid page) = some (.manifestFile m) ∧
        fs2.read (checksumPathOf base ds ps t rid page) = some (.text m.checksum_md5) := by
  intro parse md5 hd t raw base ds ps rid page ow fs fs2 out h
  obtain ⟨j, _, hman, hchk, _, _, _⟩ := write_raw_jsonl_success_inv h
  exact ⟨_, hman, hchk⟩

/-- C10 witness: a concrete successful landing; its manifest names exactly
the digest stored in the checksum sidecar. -/
theorem C10_sidecars_consistent_witness :
    ∃ m : Manifest,
      ((write_raw_jsonl (fun s => if s = "n" then some .null else none)
          (fun _ => "H") false ⟨"D", "A", "T"⟩ "n" "b" "d" [] (some "r") 0 false
          FS.empty).1).read (manifestPathOf "b" "d" [] ⟨"D", "A", "T"⟩ (some "r") 0)
        = some (.manifestFile m) ∧
      ((write_raw_jsonl (fun s => if s = "n" then some .null else none)
          (fun _ => "H") false ⟨"D", "A", "T"⟩ "n" "b" "d" [] (some "r") 0 false
          FS.empty).1).read (checksumPathOf "b" "d" [] ⟨"D", "A", "T"⟩ (some "r") 0)
        = some (.text m.checksum_md5) :=
  C10_sidecars_consistent (fun s => if s = "n" then some .null else none)
    (fun _ => "H") false ⟨"D", "A", "T"⟩ "n" "b" "d" [] (some "r") 0 false
    FS.empty _
    ⟨"b/d/dt=D/run_id=r/page=0.jsonl.gz", "b/d/dt=D/run_id=r/page=0._manifest.json",
     "b/d/dt=D/run_id=r/page=0._checksum.txt"⟩ rfl

/-- C8: whenever a landing call writes the data file (the file is absent or
`overwrite` is set), the stored gzip stream holds exactly the supplied raw
text normalized into a single line — stripped, inner newlines replaced by
spaces, and terminated by one newline — never a reshaped or re-serialized
payload. -/
theorem C8_data_bytes_normalized :
    ∀ (parse : String → Option Json) (md5 : String → String) (hd : Bool)
      (t : TimeInfo) (raw base ds : String) (ps : List (String × String))
      (rid : Option String) (page : Int) (ow : Bool) (fs fs2 : FS)
      (out : LandResult),
      write_raw_jsonl parse md5 hd t raw base ds ps rid page ow fs = (fs2, .ok out) →
      (fs.hasFile (dataPathOf base ds ps t rid page) && !ow) = false →
      fs2.read (dataPathOf base ds ps t rid page)
        = some (.gzText (pyReplaceChar (pyStrip raw) '\n' ' ' ++ "\n")) := by
  intro parse md5 hd t raw base ds ps rid page ow fs fs2 out h hc
  obtain ⟨j, _, _, _, hdata, _, _⟩ := write_raw_jsonl_success_inv h
  rw [hdata, hc]
  rfl

/-- C8 witness: landing a payload with leading whitespace and an inner
newline stores the single normalized line. -/
theorem C8_data_bytes_normalized_witness :
    ((write_raw_jsonl (fun s => if s = " A\nB " then some .null else none)
        (fun _ => "H") false ⟨"D", "A", "T"⟩ " A\nB " "b" "d" [] (some "r") 0 false
        FS.empty).1).read (dataPathOf "b" "d" [] ⟨"D", "A", "T"⟩ (some "r") 0)
      = some (.gzText (pyReplaceChar (pyStrip " A\nB ") '\n' ' ' ++ "\n")) :=
  C8_data_bytes_normalized (fun s => if s = " A\nB " then some .null else none)
    (fun _ => "H") false ⟨"D", "A", "T"⟩ " A\nB " "b" "d" [] (some "r") 0 false
    FS.empty _
    ⟨"b/d/dt=D/run_id=r/page=0.jsonl.gz", "b/d/dt=D/run_id=r/page=0._manifest.json",
     "b/d/dt=D/run_id=r/page=0._checksum.txt"⟩ rfl rfl

lemma ridOf_some_ne (t : TimeInfo) {r : String} (hr : (r == "") = false) :
    ridOf (some r) t = r := by simp [ridOf, hr]

lemma destDirOf_date_congr {t1 t2 : TimeInfo} (hdate : t1.date = t2.date)
    (base ds : String) (ps : List (String × String)) (rid : String) :
    destDirOf base ds ps t2 rid = destDirOf base ds ps t1 rid := by
  unfold destDirOf
  rw [hdate]

/-- C5: for parseable raw text, landing twice with identical arguments (a
supplied nonempty run id, the same UTC date, `overwrite` false) onto a store
that does not yet hold the data file writes the data file exactly once — the
second call leaves it holding the same normalized line — while the checksum
and manifest sidecars are recomputed and rewritten by each call, and the
checksum stored both times is the digest of the raw text exactly as supplied,
not of the newline-normalized on-disk form. -/
theorem C5_nonoverwrite_idempotence :
    ∀ (parse : String → Option Json) (md5 : String → String) (hd : Bool)
      (t1 t2 : TimeInfo) (raw base ds : String) (ps : List (String × String))
      (r : String) (page : Int) (fs fs1 fs2 : FS) (out1 out2 : LandResult),
      t1.date = t2.date →
      (r == "") = false →
      write_raw_jsonl parse md5 hd t1 raw base ds ps (some r) page false fs
        = (fs1, .ok out1) →
      write_raw_jsonl parse md5 hd t2 raw base ds ps (some r) page false fs1
        = (fs2, .ok out2) →
      fs.hasFile (dataPathOf base ds ps t1 (some r) page) = false →
      fs1.read (dataPathOf base ds ps t1 (some r) page)
          = some (.gzText (normalizeLine raw)) ∧
      fs2.read (dataPathOf base ds ps t1 (some r) page)
          = some (.gzText (normalizeLine raw)) ∧
      fs1.read (checksumPathOf base ds ps t1 (some r) page) = some (.text (md5 raw)) ∧
      fs2.read (checksumPathOf base ds ps t1 (some r) page) = some (.text (md5 raw)) ∧
      fs2.writes = fs.writes ++
        [dataPathOf base ds ps t1 (some r) page,
         checksumPathOf base ds ps t1 (some r) page,
         manifestPathOf base ds ps t1 (some r) page,
         checksumPathOf base ds ps t1 (some r) page,
         manifestPathOf base ds ps t1 (some r) page] := by
  intro parse md5 hd t1 t2 raw base ds ps r page fs fs1 fs2 out1 out2 hdate hr h1 h2 hfresh
  have hdd : destDirOf base ds ps t2 (ridOf (some r) t2)
      = destDirOf base ds ps t1 (ridOf (some r) t1) := by
    rw [ridOf_some_ne t1 hr, ridOf_some_ne t2 hr]
    exact destDirOf_date_congr hdate base ds ps r
  have hdp : dataPathOf base ds ps t2 (some r) page
      = dataPathOf base ds ps t1 (some r) page := by
    unfold dataPathOf stemOf; rw [hdd]
  have hmp : manifestPathOf base ds ps t2 (some r) page
      = manifestPathOf base ds ps t1 (some r) page := by
    unfold manifestPathOf stemOf; rw [hdd]
  have hcp : checksumPathOf base ds ps t2 (some r) page
      = checksumPathOf base ds ps t1 (some r) page := by
    unfold checksumPathOf stemOf; rw [hdd]
  obtain ⟨j1, hp1, hman1, hchk1, hdata1, hw1, _⟩ := write_raw_jsonl_success_inv h1
  obtain ⟨j2, hp2, hman2, hchk2, hdata2, hw2, _⟩ := write_raw_jsonl_success_inv h2
  rw [hdp] at hdata2 hw2
  rw [hcp] at hchk2 hw2
  rw [hmp] at hw2
  simp only [hfresh, Bool.false_and, Bool.false_eq_true, if_false] at hdata1 hw1
  have hhave : fs1.hasFile (dataPathOf base ds ps t1 (some r) page) = true := by
    rw [hasFile_eq_isSome_read, hdata1]
    rfl
  simp only [hhave, Bool.not_false, Bool.and_true, Bool.true_and, if_true,
    eq_self_iff_true] at hdata2 hw2
  refine ⟨hdata1, hdata2.trans hdata1, hchk1, hchk2, ?_⟩
  rw [hw2, hw1]
  simp

/-- C5 witness: a concrete pair of identical landing calls; one data write,
two sidecar rewrites, the digest of the supplied text both times. -/
theorem C5_nonoverwrite_idempotence_witness :
    ((write_raw_jsonl (fun s => if s = "J" then some .null else none) (fun _ => "H")
        false ⟨"D", "A", "T"⟩ "J" "b" "d" [] (some "r") 0 false FS.empty).1).read
        (dataPathOf "b" "d" [] ⟨"D", "A", "T"⟩ (some "r") 0)
      = some (.gzText (normalizeLine "J")) ∧
    ((write_raw_jsonl (fun s => if s = "J" then some .null else none) (fun _ => "H")
        false ⟨"D", "A", "T"⟩ "J" "b" "d" [] (some "r") 0 false
        ((write_raw_jsonl (fun s => if s = "J" then some .null else none) (fun _ => "H")
          false ⟨"D", "A", "T"⟩ "J" "b" "d" [] (some "r") 0 false FS.empty).1)).1).read
        (dataPathOf "b" "d" [] ⟨"D", "A", "T"⟩ (some "r") 0)
      = some (.gzText (normalizeLine "J")) ∧
    ((write_raw_jsonl (fun s => if s = "J" then some .null else none) (fun _ => "H")
        false ⟨"D", "A", "T"⟩ "J" "b" "d" [] (some "r") 0 false FS.empty).1).read
        (checksumPathOf "b" "d" [] ⟨"D", "A", "T"⟩ (some "r") 0)
      = some (.text "H") ∧
    ((write_raw_jsonl (fun s => if s = "J" then some .null else none) (fun _ => "H")
        false ⟨"D", "A", "T"⟩ "J" "b" "d" [] (some "r") 0 false
        ((write_raw_jsonl (fun s => if s = "J" then some .null else none) (fun _ => "H")
          false ⟨"D", "A", "T"⟩ "J" "b" "d" [] (some "r") 0 false FS.empty).1)).1).read
        (checksumPathOf "b" "d" [] ⟨"D", "A", "T"⟩ (some "r") 0)
      = some (.text "H") ∧
    ((write_raw_jsonl (fun s => if s = "J" then some .null else none) (fun _ => "H")
        false ⟨"D", "A", "T"⟩ "J" "b" "d" [] (some "r") 0 false
        ((write_raw_jsonl (fun s => if s = "J" then some .null else none) (fun _ => "H")
          false ⟨"D", "A", "T"⟩ "J" "b" "d" [] (some "r") 0 false FS.empty).1)).1).writes
      = FS.empty.writes ++
        [dataPathOf "b" "d" [] ⟨"D", "A", "T"⟩ (some "r") 0,
         checksumPathOf "b" "d" [] ⟨"D", "A", "T"⟩ (some "r") 0,
         manifestPathOf "b" "d" [] ⟨"D", "A", "T"⟩ (some "r") 0,
         checksumPathOf "b" "d" [] ⟨"D", "A", "T"⟩ (some "r") 0,
         manifestPathOf "b" "d" [] ⟨"D", "A", "T"⟩ (some "r") 0] :=
  C5_nonoverwrite_idempotence (fun s => if s = "J" then some .null else none)
    (fun _ => "H") false ⟨"D", "A", "T"⟩ ⟨"D", "A", "T"⟩ "J" "b" "d" [] "r" 0
    FS.empty _ _
    ⟨"b/d/dt=D/run_id=r/page=0.jsonl.gz", "b/d/dt=D/run_id=r/page=0._manifest.json",
     "b/d/dt=D/run_id=r/page=0._checksum.txt"⟩
    ⟨"b/d/dt=D/run_id=r/page=0.jsonl.gz", "b/d/dt=D/run_id=r/page=0._manifest.json",
     "b/d/dt=D/run_id=r/page=0._checksum.txt"⟩
    rfl rfl rfl rfl rfl

lemma data_ne_nil_of_ne_empty {s : String} (h : s ≠ "") : s.data ≠ [] := by
  intro hd
  exact h (String.ext hd)

lemma append_ne_empty_right {a p : String} (hp : p ≠ "") : (a ++ p) ≠ "" := by
  intro h
  have hdata : (a ++ p).data = [] := by rw [h]
  rw [string_data_append] at hdata
  exact hp (String.ext (List.append_eq_nil.mp hdata).2)

lemma strEndsWith_append_slash {x p : String} (hp : p ≠ "") :
    strEndsWith (x ++ p) "/" = strEndsWith p "/" := by
  have hpd : p.data ≠ [] := data_ne_nil_of_ne_empty hp
  have hlp : 1 ≤ p.data.length := by
    cases hq : p.data with
    | nil => exact absurd hq hpd
    | cons c cs => simp
  unfold strEndsWith
  rw [string_data_append]
  have h1 : ("/" : String).data.length = 1 := rfl
  rw [h1, List.length_append]
  have e1 : x.data.length + p.data.length - 1 = x.data.length + (p.data.length - 1) := by
    omega
  rw [e1, List.drop_append]
  have d1 : decide (1 ≤ x.data.length + p.data.length) = true :=
    decide_eq_true (by omega)
  have d2 : decide (1 ≤ p.data.length) = true := decide_eq_true hlp
  rw [d1, d2]

lemma pathAppend_plain {acc p : String} (hacc : acc ≠ "")
    (hacc2 : strEndsWith acc "/" = false) (hp : p ≠ "")
    (hps : strStartsWith p "/" = false) :
    pathAppend acc p = acc ++ "/" ++ p := by
  unfold pathAppend
  rw [if_neg hp, if_neg (by simp [hps]), if_neg hacc, if_neg (by simp [hacc2])]

lemma pathJoin_plain (parts : List String) :
    ∀ acc, acc ≠ "" → strEndsWith acc "/" = false →
      (∀ p ∈ parts, p ≠ "" ∧ strStartsWith p "/" = false ∧
        strEndsWith p "/" = false) →
      parts.foldl pathAppend acc = joinSlash (acc :: parts) := by
  induction parts with
  | nil => intro acc _ _ _; rfl
  | cons p rest ih =>
    intro acc hacc hacc2 hall
    obtain ⟨hp, hps, hpe⟩ := hall p (List.mem_cons_self ..)
    have hrest : ∀ q ∈ rest, q ≠ "" ∧ strStartsWith q "/" = false ∧
        strEndsWith q "/" = false := fun q hq => hall q (List.mem_cons_of_mem _ hq)
    rw [List.foldl_cons, pathAppend_plain hacc hacc2 hp hps]
    have hacc2' : strEndsWith (acc ++ "/" ++ p) "/" = false := by
      rw [strEndsWith_append_slash hp]
      exact hpe
    rw [ih (acc ++ "/" ++ p) (append_ne_empty_right hp) hacc2' hrest]
    cases rest with
    | nil => rfl
    | cons q qs => simp [joinSlash, String.append_assoc]

/-- C9 (amended): provided the local base is nonempty and does not end with
the separator, and the dataset, every `key=sanitizedValue` segment and the
`dt`/`run_id` segments are plain path segments — nonempty, neither beginning
nor ending with `/` — the destination directory is exactly the base followed
by those segments joined with `/`, in insertion order, each partition value
sanitized by stripping whitespace and replacing `/` with `_`.  Only values
are sanitized: a dataset or key beginning with `/` (excluded here) makes its
part absolute and discards everything before it, as the counterexample
shows. -/
theorem C9_destination_layout :
    ∀ (base ds : String) (ps : List (String × String)) (t : TimeInfo)
      (rid : String),
      _to_local_path base ≠ "" →
      strEndsWith (_to_local_path base) "/" = false →
      (∀ p ∈ [ds] ++ ps.map (fun kv => kv.1 ++ "=" ++ sanitizePart kv.2)
          ++ ["dt=" ++ t.date, "run_id=" ++ rid],
        p ≠ "" ∧ strStartsWith p "/" = false ∧ strEndsWith p "/" = false) →
      destDirOf base ds ps t rid
        = joinSlash (_to_local_path base :: ([ds]
            ++ ps.map (fun kv => kv.1 ++ "=" ++ sanitizePart kv.2)
            ++ ["dt=" ++ t.date, "run_id=" ++ rid])) := by
  intro base ds ps t rid hb hb2 hall
  unfold destDirOf pathJoin
  have h0 : pathAppend "" (_to_local_path base) = _to_local_path base := by
    unfold pathAppend
    rw [if_neg hb]
    by_cases hs : strStartsWith (_to_local_path base) "/" = true
    · rw [if_pos hs]
    · rw [if_neg hs, if_pos rfl]
  have hlist : ([_to_local_path base, ds]
      ++ ps.map (fun kv => kv.1 ++ "=" ++ sanitizePart kv.2)
      ++ ["dt=" ++ t.date, "run_id=" ++ rid])
      = _to_local_path base :: ([ds]
        ++ ps.map (fun kv => kv.1 ++ "=" ++ sanitizePart kv.2)
        ++ ["dt=" ++ t.date, "run_id=" ++ rid]) := rfl
  rw [hlist, List.foldl_cons, h0]
  exact pathJoin_plain _ _ hb hb2 hall

/-- C9 witness: a concrete layout with a value containing `/`: the value is
sanitized to `a_b` and the segments appear in insertion order under the
base. -/
theorem C9_destination_layout_witness :
    destDirOf "b" "d" [("q", "a/b")] ⟨"2024-01-01", "A", "T"⟩ "r"
      = joinSlash ("b" :: (["d"]
          ++ [("q", "a/b")].map (fun kv => kv.1 ++ "=" ++ sanitizePart kv.2)
          ++ ["dt=" ++ "2024-01-01", "run_id=" ++ "r"])) :=
  C9_destination_layout "b" "d" [("q", "a/b")] ⟨"2024-01-01", "A", "T"⟩ "r"
    (by decide) (by decide) (by decide)

/-- C9 counterexample: a dataset beginning with the path separator makes its
`pathlib` part absolute, so the destination is not under the base directory
at all — `Path("b", "/x", ...)` discards `b` — contradicting the claim that
the destination is `baseDir / dataset / ...` for every dataset. -/
theorem C9_counterexample :
    destDirOf "b" "/x" [("q", "v")] ⟨"2024-01-01", "A", "T"⟩ "r"
      = "/x/q=v/dt=2024-01-01/run_id=r" := rfl

/-- C7: the validator equals its spec-side restatement `validateSpec` — so it
fails with a `SchemaError` exactly when the document is not a mapping with
key `artists`, or `artists` is not a mapping with key `items`, or `items` is
not a nonempty list, or some element of `items` is not a mapping holding all
of `followers`, `genres`, `name`, `popularity`, `type`, and each failure
names the offending context, including the element index — and a document
passes (with no coercion or defaulting; the gate returns unit) if and only if
it conforms. -/
theorem C7_validator_characterization :
    (∀ p : Json, validate_json p = validateSpec p) ∧
    (∀ p : Json, validate_json p = .ok () ↔ conforms p = true) :=
  ⟨validate_json_eq_spec, fun p => by
    rw [validate_json_eq_spec]
    exact validateSpec_ok_iff p⟩

end SpotifyBronze
